import Mathlib

/-!
Verification of the OpenDXL Streaming JavaScript client (`lib/channel.js`,
`lib/channel-token.js` and the error classes) against its natural-language
specification.  The JavaScript source is shallowly embedded: the callback
driven control flow of each channel operation is modelled as a pure function
from the channel state and the observed HTTP outcome to the successor state,
the list of HTTP requests issued, and the value delivered to the completion
callback.
-/

namespace DxlStreaming

/--
The error taxonomy of the library.  Each constructor corresponds to one of
the error classes (`lib/permanent-error.js`, `lib/temporary-error.js`,
`lib/stop-error.js`, `lib/consumer-error.js`,
`lib/permanent-authentication-error.js`,
`lib/temporary-authentication-error.js`).  Inheritance in the source:
`ConsumerError` and `TemporaryAuthenticationError` extend `TemporaryError`;
`PermanentAuthenticationError` extends `PermanentError`; `StopError`,
`PermanentError` and `TemporaryError` extend `Error` directly.
-/
inductive ChannelError where
  | permanentError (message : String)
  | temporaryError (message : String)
  | stopError
  | consumerError (message : String)
  | permanentAuthenticationError (message : String)
  | temporaryAuthenticationError (message : String)
  deriving DecidableEq, Repr

/-- `error instanceof ConsumerError` in the source. -/
def ChannelError.isConsumerError : ChannelError → Bool
  | .consumerError _ => true
  | _ => false

/-- `error instanceof TemporaryError`: `TemporaryError` itself plus its
subclasses `ConsumerError` and `TemporaryAuthenticationError`. -/
def ChannelError.isTemporaryError : ChannelError → Bool
  | .temporaryError _ => true
  | .consumerError _ => true
  | .temporaryAuthenticationError _ => true
  | _ => false

/-- `error instanceof PermanentError`: `PermanentError` itself plus its
subclass `PermanentAuthenticationError`. -/
def ChannelError.isPermanentError : ChannelError → Bool
  | .permanentError _ => true
  | .permanentAuthenticationError _ => true
  | _ => false

/-- `error instanceof StopError`. -/
def ChannelError.isStopError : ChannelError → Bool
  | .stopError => true
  | _ => false

/-- One entry of the local commit log: `{topic, partition, offset}` as pushed
by `Channel.prototype.consume` (channel.js lines 850-854). -/
structure CommitEntry where
  topic : String
  partition : Nat
  offset : Nat
  deriving DecidableEq, Repr

/-- `routingData` of a consumed record. -/
structure RoutingData where
  topic : String
  shardingKey : String
  deriving DecidableEq, Repr

/-- `message` of a consumed record; `payload` is the base64 string. -/
structure RecordMessage where
  payload : String
  deriving DecidableEq, Repr

/-- One record of a `GET .../records` response body
(`{records: [{routingData, partition, offset, message}]}`). -/
structure ConsumeRecord where
  routingData : RoutingData
  partition : Nat
  offset : Nat
  message : RecordMessage
  deriving DecidableEq, Repr

/--
The mutable state of a `Channel` instance (constructor of channel.js).
Callbacks are identified by numeric ids; `runLoopFuncSet` and
`runLoopTimeoutSet` record whether `_runLoopFunc` / `_runLoopTimeout` are
non-null.
-/
structure ChannelState where
  consumerGroup : Option String
  consumerPathPrefix : String
  producerPathPrefix : String
  configs : List (String × String)
  retryOnFail : Bool
  consumerId : Option String
  activeSubscriptions : List String
  requestedSubscriptions : List String
  recordsCommitLog : List CommitEntry
  active : Bool
  running : Bool
  stopRequested : Bool
  stopCallbacks : List Nat
  runLoopFuncSet : Bool
  runLoopTimeoutSet : Bool
  deriving DecidableEq, Repr

/-- `Channel.prototype.reset` (channel.js lines 704-709). -/
def ChannelState.reset (s : ChannelState) : ChannelState :=
  { s with consumerId := none, activeSubscriptions := [],
           requestedSubscriptions := [], recordsCommitLog := [] }

/-- `util.appendUrlSubpath`: drop one trailing slash from the url and one
leading slash from the subpath, then join with a single slash. -/
def appendUrlSubpath (url subpath : String) : String :=
  (if url.endsWith "/" then url.dropRight 1 else url) ++ "/" ++
    (if subpath.startsWith "/" then subpath.drop 1 else subpath)

/-- JSON body of an outgoing request, by endpoint. -/
inductive RequestBody where
  | createBody (consumerGroup : String) (configs : List (String × String))
  | subscriptionBody (topics : List String)
  | offsetsBody (offsets : List CommitEntry)
  | produceBody (payload : String)
  | emptyBody
  deriving DecidableEq, Repr

/-- An HTTP request issued by the channel. -/
structure HttpRequest where
  method : String
  uri : String
  body : RequestBody
  deriving DecidableEq, Repr

/-- What the transport reports back for one request: either a transport
error (the `error` parameter of the request callback) or a response with a
status code and a typed body. -/
inductive HttpOutcome (β : Type) where
  | transportError (e : ChannelError)
  | reply (status : Nat) (body : β)
  deriving DecidableEq, Repr

/-- Which callback `_sendRequestWithAuthInfo` ends up invoking, with what
argument; `authReset` records whether `auth.reset()` was called. -/
inductive ExecResult (β : Type) where
  | success (status : Nat) (body : β)
  | failure (e : ChannelError) (authReset : Bool)
  | notFound (status : Nat) (body : β)
  deriving DecidableEq, Repr

/--
`_sendRequestWithAuthInfo` (channel.js lines 348-384): classify the HTTP
outcome.  `authHasReset` is `channel._auth && channel._auth.reset`;
`hasNotFoundCallback` is whether a `notFoundCallback` argument was supplied;
`stringify` renders the response body (`JSON.stringify(response.body)`).
-/
def sendRequestWithAuthInfo {β : Type} (authHasReset hasNotFoundCallback : Bool)
    (stringify : β → String) : HttpOutcome β → ExecResult β
  | .transportError e => .failure e false
  | .reply status body =>
    if status = 200 ∨ status = 201 ∨ status = 202 ∨ status = 204 then
      .success status body
    else if status = 401 ∨ status = 403 then
      .failure (.temporaryError ("Token potentially expired (" ++
        toString status ++ "): " ++ stringify body)) authHasReset
    else if status = 404 ∧ hasNotFoundCallback then
      .notFound status body
    else
      .failure (.temporaryError ("Unexpected temporary error " ++
        toString status ++ ": " ++ stringify body)) false

/--
`_sendRequest` (channel.js lines 416-440): run the auth step, then send.
`authError` is the error the auth strategy delivered, if any (`none` when
there is no auth strategy or authentication succeeded).  The boolean of the
result records whether the request was actually sent to the transport.
-/
def sendRequestModel {β : Type} (authError : Option ChannelError)
    (authHasReset hasNotFoundCallback : Bool) (stringify : β → String)
    (o : HttpOutcome β) : ExecResult β × Bool :=
  match authError with
  | some e => (.failure e false, false)
  | none => (sendRequestWithAuthInfo authHasReset hasNotFoundCallback stringify o, true)

/-- The consumer id as it appears in URIs (`'consumers/' + consumerId`
stringifies `null`). -/
def ChannelState.consumerIdText (s : ChannelState) : String :=
  match s.consumerId with
  | some cid => cid
  | none => "null"

/-- What `_retryOnFailure` (channel.js lines 471-510) does before handing an
attempt to the operation callback. -/
inductive RetryGate where
  | inactive
  | stopped
  | proceed
  deriving DecidableEq, Repr

/-- The guards of `_retryOnFailure`: `_stillActive` delivers a
`PermanentError` to the completion callback when the channel has been
destroyed; `_running && _stopRequested` delivers a `StopError`. -/
def retryGate (s : ChannelState) : RetryGate :=
  if ¬ s.active then .inactive
  else if s.running ∧ s.stopRequested then .stopped
  else .proceed

/--
The decision taken by the completion handler inside `_retryOnFailure`
(channel.js lines 491-505): another attempt is scheduled exactly when an
error was delivered, the error is not a `ConsumerError`, `retryOnFail` is
set, and `operation.retry(error)` accepts it.  The operation is configured
with `forever: true`, so `operation.retry` of the external retry package
returns `true` for every non-null error; `retryScheduled` therefore reduces
to the first three conditions.
-/
def retryScheduled (retryOnFail : Bool) (error : Option ChannelError) : Bool :=
  match error with
  | none => false
  | some e => (! e.isConsumerError) && retryOnFail

/-- Message of the `PermanentError` raised by `_stillActive`. -/
def destroyedMessage : String := "Channel has been destroyed"

/-- Message of the `ConsumerError` raised by the consumer-scoped
not-found callbacks of `_subscribe`, `consume` and `commit`. -/
def consumerGoneMessage (consumerId : String) : String :=
  "Consumer '" ++ consumerId ++ "' does not exist"

/-- Result of one channel operation attempt: the successor state, the HTTP
requests issued during the attempt, and the argument delivered to the
operation's completion callback (`none` = success). -/
structure AttemptResult where
  state : ChannelState
  requests : List HttpRequest
  error : Option ChannelError
  deriving DecidableEq, Repr

/--
One attempt of `Channel.prototype.commit` (channel.js lines 888-919): with a
non-empty commit log the attempt POSTs
`<consumer_prefix>/consumers/<id>/offsets` with `{offsets: commit_log}` and
clears the log on success; with an empty log the callback is invoked
asynchronously with success and nothing is sent.  `authError`,
`authHasReset` and `o` describe the environment of the attempt as in
`sendRequestModel`.
-/
def commitAttempt (s : ChannelState) (authError : Option ChannelError)
    (authHasReset : Bool) (stringify : Unit → String)
    (o : HttpOutcome Unit) : AttemptResult :=
  if s.recordsCommitLog = [] then
    { state := s, requests := [], error := none }
  else
    match retryGate s with
    | .inactive => { state := s, requests := [],
                     error := some (.permanentError destroyedMessage) }
    | .stopped => { state := s, requests := [], error := some .stopError }
    | .proceed =>
      let cid := s.consumerIdText
      let req : HttpRequest :=
        { method := "POST",
          uri := appendUrlSubpath s.consumerPathPrefix
            ("consumers/" ++ cid ++ "/offsets"),
          body := .offsetsBody s.recordsCommitLog }
      match sendRequestModel authError authHasReset true stringify o with
      | (.success _ _, _) =>
        { state := { s with recordsCommitLog := [] }, requests := [req],
          error := none }
      | (.failure e _, sent) =>
        { state := s, requests := if sent then [req] else [],
          error := some e }
      | (.notFound _ _, _) =>
        { state := s, requests := [req],
          error := some (.consumerError (consumerGoneMessage cid)) }

/-- Result of one `consume` attempt: additionally carries the decoded
payload list delivered as the second callback argument. -/
structure ConsumeAttemptResult (α : Type) where
  state : ChannelState
  requests : List HttpRequest
  error : Option ChannelError
  payloads : Option (List α)
  deriving Repr

/-- The commit-log entry recorded for one consumed record
(channel.js lines 850-854). -/
def recordEntry (r : ConsumeRecord) : CommitEntry :=
  { topic := r.routingData.topic, partition := r.partition, offset := r.offset }

/-- `none` when `consume` throws `PermanentError('Channel is not subscribed
to any topic')` synchronously, before any attempt. -/
def consumeAttempt {α : Type} (s : ChannelState) (authError : Option ChannelError)
    (authHasReset : Bool) (stringify : List ConsumeRecord → String)
    (decode : String → α)
    (o : HttpOutcome (List ConsumeRecord)) : Option (ConsumeAttemptResult α) :=
  if s.activeSubscriptions = [] then none
  else some (
    match retryGate s with
    | .inactive => { state := s, requests := [],
                     error := some (.permanentError destroyedMessage),
                     payloads := none }
    | .stopped => { state := s, requests := [], error := some .stopError,
                    payloads := none }
    | .proceed =>
      let cid := s.consumerIdText
      let req : HttpRequest :=
        { method := "GET",
          uri := appendUrlSubpath s.consumerPathPrefix
            ("consumers/" ++ cid ++ "/records"),
          body := .emptyBody }
      match sendRequestModel authError authHasReset true stringify o with
      | (.success _ records, _) =>
        { state := { s with recordsCommitLog :=
              s.recordsCommitLog ++ records.map recordEntry },
          requests := [req], error := none,
          payloads := some (records.map (fun r => decode r.message.payload)) }
      | (.failure e _, sent) =>
        { state := s, requests := if sent then [req] else [],
          error := some e, payloads := none }
      | (.notFound _ _, _) =>
        { state := s, requests := [req],
          error := some (.consumerError (consumerGoneMessage cid)),
          payloads := none })

/--
One attempt of `Channel.prototype.create` (channel.js lines 722-759):
throws (`none`) when no consumer group was configured; otherwise calls
`reset()`, then POSTs `<consumer_prefix>/consumers` with
`{consumerGroup, configs}`; the response body is the optional
`consumerInstanceId`.
-/
def createAttempt (s : ChannelState) (authError : Option ChannelError)
    (authHasReset : Bool) (stringify : Option String → String)
    (o : HttpOutcome (Option String)) : Option AttemptResult :=
  match s.consumerGroup with
  | none => none
  | some group =>
    let s := s.reset
    some (
      match retryGate s with
      | .inactive => { state := s, requests := [],
                       error := some (.permanentError destroyedMessage) }
      | .stopped => { state := s, requests := [], error := some .stopError }
      | .proceed =>
        let req : HttpRequest :=
          { method := "POST",
            uri := appendUrlSubpath s.consumerPathPrefix "consumers",
            body := .createBody group s.configs }
        match sendRequestModel authError authHasReset false stringify o with
        | (.success _ (some cid), _) =>
          { state := { s with consumerId := some cid }, requests := [req],
            error := none }
        | (.success _ none, _) =>
          { state := s, requests := [req],
            error := some (.permanentError
              "Unable to locate consumerInstanceId in create consumer response") }
        | (.failure e _, sent) =>
          { state := s, requests := if sent then [req] else [],
            error := some e }
        | (.notFound _ _, _) =>
          { state := s, requests := [req],
            error := some (.permanentError "unreachable: no notFoundCallback") })

/--
`_alreadySubscribed` (channel.js lines 521-534): length comparison followed
by an index-by-index comparison of the requested topics against
`_activeSubscriptions`.
-/
def alreadySubscribed (topics activeSubscriptions : List String) : Bool :=
  if topics.length = activeSubscriptions.length then
    (List.range topics.length).all
      (fun i => topics.getD i "" = activeSubscriptions.getD i "")
  else false

/--
One attempt of the `_subscribe` helper (channel.js lines 545-572), after it
has stored the requested topics: POST
`<consumer_prefix>/consumers/<id>/subscription` with `{topics}`; success
copies `topics` to `_activeSubscriptions`; 404 raises a `ConsumerError`.
-/
def subscribeHttpAttempt (s : ChannelState) (topics : List String)
    (authError : Option ChannelError) (authHasReset : Bool)
    (stringify : Unit → String) (o : HttpOutcome Unit) : AttemptResult :=
  match retryGate s with
  | .inactive => { state := s, requests := [],
                   error := some (.permanentError destroyedMessage) }
  | .stopped => { state := s, requests := [], error := some .stopError }
  | .proceed =>
    let cid := s.consumerIdText
    let req : HttpRequest :=
      { method := "POST",
        uri := appendUrlSubpath s.consumerPathPrefix
          ("consumers/" ++ cid ++ "/subscription"),
        body := .subscriptionBody topics }
    match sendRequestModel authError authHasReset true stringify o with
    | (.success _ _, _) =>
      { state := { s with activeSubscriptions := topics }, requests := [req],
        error := none }
    | (.failure e _, sent) =>
      { state := s, requests := if sent then [req] else [], error := some e }
    | (.notFound _ _, _) =>
      { state := s, requests := [req],
        error := some (.consumerError (consumerGoneMessage cid)) }

/-- How a call into a channel operation terminates: a synchronous `throw`,
or an invocation of the caller's completion callback. -/
inductive OpCompletion where
  | thrown (e : ChannelError)
  | callback (error : Option ChannelError)
  deriving DecidableEq, Repr

/-- Result of a whole operation call: successor state, requests issued and
how the call completed. -/
structure OpResult where
  state : ChannelState
  requests : List HttpRequest
  completion : OpCompletion
  deriving DecidableEq, Repr

/--
`Channel.prototype.subscribe` (channel.js lines 776-806), for an array
argument: an empty array throws a `PermanentError`; a request for topics
identical to `_activeSubscriptions` completes asynchronously with success
and no request; otherwise the consumer is created first when `_consumerId`
is unset, and then one `_subscribe` attempt runs.  `createOutcome` is the
HTTP outcome observed by the `create` attempt (when one is made) and
`subOutcome` the outcome observed by the subscription POST.
-/
def subscribeOp (s : ChannelState) (topics : List String)
    (authError : Option ChannelError) (authHasReset : Bool)
    (createOutcome : HttpOutcome (Option String))
    (subOutcome : HttpOutcome Unit) : OpResult :=
  if topics = [] then
    { state := s, requests := [],
      completion := .thrown (.permanentError "At least one topic must be specified") }
  else if alreadySubscribed topics s.activeSubscriptions then
    { state := s, requests := [], completion := .callback none }
  else
    match s.consumerId with
    | some _ =>
      let r := subscribeHttpAttempt { s with requestedSubscriptions := topics }
        topics authError authHasReset (fun _ => "") subOutcome
      { state := r.state, requests := r.requests, completion := .callback r.error }
    | none =>
      match createAttempt s authError authHasReset (fun _ => "") createOutcome with
      | none =>
        { state := s, requests := [],
          completion := .thrown (.permanentError
            "No value specified for 'consumerGroup' option during channel init") }
      | some c =>
        match c.error with
        | some e =>
          { state := c.state, requests := c.requests, completion := .callback (some e) }
        | none =>
          let r := subscribeHttpAttempt
            { c.state with requestedSubscriptions := topics }
            topics authError authHasReset (fun _ => "") subOutcome
          { state := r.state, requests := c.requests ++ r.requests,
            completion := .callback r.error }

/--
`Channel.prototype.delete` (channel.js lines 1044-1071): a no-op success
when `_consumerId` is unset; otherwise one DELETE
`<consumer_prefix>/consumers/<id>` — not guarded by `_stillActive` and not
driven through `_retryOnFailure`.  Success and 404 both call `reset()`; the
404 additionally reports a `ConsumerError`.
-/
def deleteOp (s : ChannelState) (authError : Option ChannelError)
    (authHasReset : Bool) (stringify : Unit → String)
    (o : HttpOutcome Unit) : OpResult :=
  match s.consumerId with
  | none => { state := s, requests := [], completion := .callback none }
  | some cid =>
    let req : HttpRequest :=
      { method := "DELETE",
        uri := appendUrlSubpath s.consumerPathPrefix ("consumers/" ++ cid),
        body := .emptyBody }
    match sendRequestModel authError authHasReset true stringify o with
    | (.success _ _, _) =>
      { state := s.reset, requests := [req], completion := .callback none }
    | (.failure e _, sent) =>
      { state := s, requests := if sent then [req] else [],
        completion := .callback (some e) }
    | (.notFound _ _, _) =>
      { state := s.reset, requests := [req],
        completion := .callback (some (.consumerError ("Consumer with ID '" ++
          cid ++ "' not found. Resetting consumer anyways."))) }

/--
`Channel.prototype.produce` (channel.js lines 1083-1101): one POST of the
caller's payload to `<producer_prefix>/produce` — with no `_stillActive`
guard and no retry driver.
-/
def produceOp (s : ChannelState) (payload : String)
    (authError : Option ChannelError) (authHasReset : Bool)
    (stringify : Unit → String) (o : HttpOutcome Unit) : OpResult :=
  let req : HttpRequest :=
    { method := "POST",
      uri := appendUrlSubpath s.producerPathPrefix "produce",
      body := .produceBody payload }
  match sendRequestModel authError authHasReset false stringify o with
  | (.success _ _, _) =>
    { state := s, requests := [req], completion := .callback none }
  | (.failure e _, sent) =>
    { state := s, requests := if sent then [req] else [],
      completion := .callback (some e) }
  | (.notFound _ _, _) =>
    { state := s, requests := [req],
      completion := .callback (some (.permanentError "unreachable: no notFoundCallback")) }

/-- Result of `Channel.prototype.stop` (channel.js lines 1019-1036).
`callbackInvokedImmediately` records the not-running branch
(`callbackAsync(callback)`); `runLoopFuncScheduled` records that a pending
`_runLoopFunc` was handed to `callbackAsync` after its timer was cleared. -/
structure StopResult where
  state : ChannelState
  callbackInvokedImmediately : Bool
  runLoopFuncScheduled : Bool
  deriving DecidableEq, Repr

/-- `Channel.prototype.stop`, with the stop callback identified by `cb`
(`none` when the caller passed no callback). -/
def stopOp (s : ChannelState) (cb : Option Nat) : StopResult :=
  if s.running then
    let s := { s with stopRequested := true }
    let scheduled := s.runLoopTimeoutSet ∧ s.runLoopFuncSet
    let s := if s.runLoopTimeoutSet then
        { s with runLoopTimeoutSet := false, runLoopFuncSet := false }
      else s
    let s := match cb with
      | some cbId => { s with stopCallbacks := s.stopCallbacks ++ [cbId] }
      | none => s
    { state := s, callbackInvokedImmediately := false,
      runLoopFuncScheduled := decide scheduled }
  else
    { state := s, callbackInvokedImmediately := true,
      runLoopFuncScheduled := false }

/-- What `_handleRunError` (channel.js lines 666-698) does with an error
delivered during a run: continue the loop after a reset (`ConsumerError`
branch), or exit the run.  On exit, `invokedStopCallbacks` lists the stop
callbacks invoked (in order) and `doneCallbackArg` the argument passed to
the run's done callback, when one was supplied. -/
inductive RunErrorResult where
  | continueRun (state : ChannelState)
  | exitRun (state : ChannelState) (invokedStopCallbacks : List Nat)
      (doneCallbackArg : Option (Option ChannelError))
  deriving DecidableEq, Repr

/-- `_handleRunError`; `error = none` models the `continue = false` exit of
the consume loop (channel.js lines 978-991 invoke it with a null error). -/
def handleRunError (s : ChannelState) (error : Option ChannelError)
    (hasDoneCallback : Bool) : RunErrorResult :=
  match error with
  | some e =>
    if e.isConsumerError then .continueRun s.reset
    else exitRun s (some e) hasDoneCallback
  | none => exitRun s none hasDoneCallback
where
  /-- The exit path: `running ← false`, drain `_stopCallbacks`,
  `stopRequested ← false`, invoke the drained callbacks, then the done
  callback with the error (a `StopError` is replaced by null). -/
  exitRun (s : ChannelState) (error : Option ChannelError)
      (hasDoneCallback : Bool) : RunErrorResult :=
    let drained := s.stopCallbacks
    let s := { s with running := false, stopCallbacks := [],
                      stopRequested := false }
    let doneArg :=
      if hasDoneCallback then
        some (match error with
          | some e => if e.isStopError then none else some e
          | none => none)
      else none
    .exitRun s drained doneArg

/-- One observation made of the caller's process callback during
`_consumeForRun`:  either an invocation of `_handleProcessCallbackResponse`
with a continue flag, or a direct invocation of the consume loop's done
callback with an error. -/
inductive RunEvent where
  | handled (continueRunning : Option Bool)
  | done (error : Option ChannelError) (continueRunning : Bool)
  deriving DecidableEq, Repr

/-- Behaviour of the caller's process callback within one iteration:
`syncResult` is what the synchronous call does (throw, or return a possibly
undefined continue flag); `asyncCompletion` is the `(error, continue?)`
pair the callback passes to its completion callback, when it invokes it. -/
structure ProcessBehavior where
  syncResult : Except ChannelError (Option Bool)
  asyncCompletion : Option (Option ChannelError × Option Bool)
  deriving Repr

/--
`_consumeForRun` (channel.js lines 629-655), reduced to the sequence of
observations it acts on.  A consume error goes straight to the done
callback.  Otherwise the process callback runs: if it invokes its
completion callback, that invocation drives `_handleProcessCallbackResponse`
(or the done callback, on error); if its synchronous return value is not
`undefined`, that value also drives `_handleProcessCallbackResponse`; a
thrown exception is caught and passed to the done callback.  The list holds
the resulting events with completion-callback events first (the earliest
they can occur); nothing in the source suppresses either observation.
-/
def consumeForRunEvents (consumeError : Option ChannelError)
    (pb : ProcessBehavior) : List RunEvent :=
  match consumeError with
  | some e => [.done (some e) false]
  | none =>
    let asyncEvents : List RunEvent :=
      match pb.asyncCompletion with
      | none => []
      | some (some processError, _) => [.done (some processError) false]
      | some (none, continueRunning) => [.handled continueRunning]
    match pb.syncResult with
    | .error e => asyncEvents ++ [.done (some e) false]
    | .ok none => asyncEvents
    | .ok (some b) => asyncEvents ++ [.handled (some b)]

/-- How far `Channel.prototype.run` (channel.js lines 946-1009) gets within
its first `doRun` iteration: a synchronous throw at an entry check, an exit
through `_handleRunError` (carrying the drained stop callbacks and the done
argument), a restart of `doRun` after a `ConsumerError` from the subscribe
phase, or entry into the consume loop after a successful subscribe. -/
inductive RunStartResult where
  | thrown (e : ChannelError)
  | exited (state : ChannelState) (requests : List HttpRequest)
      (invokedStopCallbacks : List Nat) (doneCallbackArg : Option (Option ChannelError))
  | resubscribe (state : ChannelState) (requests : List HttpRequest)
  | enteredConsumeLoop (state : ChannelState) (requests : List HttpRequest)
  deriving DecidableEq, Repr

/--
The entry checks of `run` followed by its first subscribe phase.  `topics`
is the caller's topic argument (`none` = not supplied); string arguments
are normalised to singleton arrays by the source before this logic, so the
model takes lists.  The environments of the embedded `create` and
subscription attempts are as in `subscribeOp`.
-/
def runStart (s : ChannelState) (topics : Option (List String))
    (hasProcessCallback hasDoneCallback : Bool)
    (authError : Option ChannelError) (authHasReset : Bool)
    (createOutcome : HttpOutcome (Option String))
    (subOutcome : HttpOutcome Unit) : RunStartResult :=
  if s.consumerGroup = none then
    .thrown (.permanentError
      "No value specified for 'consumerGroup' option during channel init")
  else if ¬ hasProcessCallback then
    .thrown (.permanentError "Value must be specified for processCallback")
  else if s.running then
    .thrown (.permanentError "Previous run already in progress")
  else
    match topics with
    | some [] => .thrown (.permanentError "At least one topic must be specified")
    | some ts => firstIteration { s with requestedSubscriptions := ts }
        hasDoneCallback authError authHasReset createOutcome subOutcome
    | none =>
      if s.activeSubscriptions = [] then
        .thrown (.permanentError "Channel is not subscribed to any topic")
      else firstIteration s hasDoneCallback authError authHasReset
        createOutcome subOutcome
where
  /-- `this._running = true` followed by `doRun()`: subscribe to the
  snapshot of `_requestedSubscriptions` and dispatch on the result. -/
  firstIteration (s : ChannelState) (hasDoneCallback : Bool)
      (authError : Option ChannelError) (authHasReset : Bool)
      (createOutcome : HttpOutcome (Option String))
      (subOutcome : HttpOutcome Unit) : RunStartResult :=
    let s := { s with running := true }
    let currentSubscriptions := s.requestedSubscriptions
    let r := subscribeOp s currentSubscriptions authError authHasReset
      createOutcome subOutcome
    match r.completion with
    | .thrown e => .thrown e
    | .callback none => .enteredConsumeLoop r.state r.requests
    | .callback (some e) =>
      match handleRunError r.state (some e) hasDoneCallback with
      | .continueRun s' => .resubscribe s' r.requests
      | .exitRun s' invoked doneArg => .exited s' r.requests invoked doneArg

/-- `RETRY_FACTOR` (channel.js line 25). -/
def RETRY_FACTOR : Nat := 2

/-- `MIN_RETRY_TIMEOUT` in milliseconds (channel.js line 26). -/
def MIN_RETRY_TIMEOUT : Nat := 1000

/-- `MAX_RETRY_TIMEOUT` in milliseconds (channel.js line 27). -/
def MAX_RETRY_TIMEOUT : Nat := 10000

/-- `forever: true` in the `retry.operation` call (channel.js line 479). -/
def RETRY_FOREVER : Bool := true

/--
Modelled from the spec: the backoff delay before retry attempt `attempt`
(0-based) is computed inside the external `retry` npm package from the
parameters channel.js passes (`factor`, `minTimeout`, `maxTimeout`,
`forever`); the spec gives it as
`min(max_backoff, factor^attempt × min_backoff)`.
-/
def retryBackoff (attempt : Nat) : Nat :=
  min (MIN_RETRY_TIMEOUT * RETRY_FACTOR ^ attempt) MAX_RETRY_TIMEOUT

/-- `LOGIN_PATH_FRAGMENT` of channel-token.js (line 10). -/
def TOKEN_LOGIN_PATH_FRAGMENT : String := "/iam/v1.4/token"

/-- The instance properties the `ChannelToken` constructor assigns
(channel-token.js lines 52-57), as a key/value map of the string-valued
ones. -/
def channelTokenProps (clientid clientsecret scope grantType audience : String) :
    List (String × String) :=
  [("_clientid", clientid), ("_clientsecret", clientsecret),
   ("_scope", scope), ("_grantType", grantType), ("_audience", audience)]

/-- The form body of the token login POST. -/
structure TokenForm where
  scope : Option String
  grant_type : Option String
  audience : Option String
  deriving DecidableEq, Repr

/-- The `form` object built by `ChannelToken.prototype.authenticate` for the
first (uncached) call (channel-token.js lines 99-103): each field is read
back from the instance by property name (`this._scope`, `this._grant_type`,
`this._audience`); a property never assigned reads as `undefined`. -/
def tokenLoginForm (props : List (String × String)) : TokenForm :=
  { scope := props.lookup "_scope",
    grant_type := props.lookup "_grant_type",
    audience := props.lookup "_audience" }

/-- `true` for events that invoke `_handleProcessCallbackResponse`
(commit-and-wait handling). -/
def RunEvent.isHandled : RunEvent → Bool
  | .handled _ => true
  | .done _ _ => false

/-- How many observations of the process callback drove the
commit-and-wait handling during one `_consumeForRun` iteration. -/
def handledCount (events : List RunEvent) : Nat :=
  events.countP RunEvent.isHandled

/-- A fresh channel as built by the constructor with consumer group
`sample_consumer_group` and default options. -/
def initialChannelState : ChannelState :=
  { consumerGroup := some "sample_consumer_group",
    consumerPathPrefix := "/databus/consumer-service/v1",
    producerPathPrefix := "/databus/cloudproxy/v1",
    configs := [("auto.offset.reset", "latest"), ("enable.auto.commit", "false")],
    retryOnFail := true, consumerId := none, activeSubscriptions := [],
    requestedSubscriptions := [], recordsCommitLog := [], active := true,
    running := false, stopRequested := false, stopCallbacks := [],
    runLoopFuncSet := false, runLoopTimeoutSet := false }

/-- The channel state after `destroy` has completed: `stop` ran (not
running, nothing pending), `delete` reset the consumer fields, and
`active` was cleared. -/
def postDestroyState : ChannelState :=
  { initialChannelState with active := false }

/-- A channel that holds consumer `c1` subscribed to topic `t1`. -/
def subscribedChannelState : ChannelState :=
  { initialChannelState with consumerId := some "c1",
                             activeSubscriptions := ["t1"],
                             requestedSubscriptions := ["t1"] }

/-- A channel in the middle of a `run` on topic `t1`. -/
def runningChannelState : ChannelState :=
  { subscribedChannelState with running := true }

/-- If the requested topic list is non-empty it can never compare equal to
an empty `_activeSubscriptions` array in `_alreadySubscribed`. -/
theorem alreadySubscribed_nil_right (T : List String) (h : T ≠ []) :
    alreadySubscribed T [] = false := by
  simp only [alreadySubscribed, List.length_nil]
  rw [if_neg]
  simpa [List.length_eq_zero] using h

/-- `_alreadySubscribed` accepts a topic list identical to the active
subscriptions. -/
theorem alreadySubscribed_self (T : List String) : alreadySubscribed T T = true := by
  simp [alreadySubscribed]

/-- C1: the completion handler of `_retryOnFailure` schedules a retry for a
`PermanentAuthenticationError` (such as the 403-login failure of scenario
S5) whenever `retryOnFail` is set, even though the error is not a
`TemporaryError`: the code checks only `ConsumerError` and `retryOnFail`,
never temporariness, so a permanent error is retried instead of being
forwarded on the first attempt. -/
theorem retryOnFailure_retries_permanent_auth_error :
    retryScheduled true
      (some (.permanentAuthenticationError "Unauthorized 403: forbidden")) = true ∧
    (ChannelError.permanentAuthenticationError
      "Unauthorized 403: forbidden").isTemporaryError = false ∧
    (ChannelError.permanentAuthenticationError
      "Unauthorized 403: forbidden").isPermanentError = true := by
  exact ⟨rfl, rfl, rfl⟩

/-- C9: on the first `ChannelToken.authenticate` call the form body of the
token POST carries the constructed scope and audience, but its `grant_type`
field is `undefined`: the constructor stores the grant type under
`_grantType` while the form reads `this._grant_type`, a property that is
never assigned. -/
theorem tokenLoginForm_grant_type_undefined :
    tokenLoginForm (channelTokenProps "client1" "secret1" "scope1"
        "client_credentials" "aud1") =
      { scope := some "scope1", grant_type := none, audience := some "aud1" } ∧
    (tokenLoginForm (channelTokenProps "client1" "secret1" "scope1"
        "client_credentials" "aud1")).grant_type ≠ some "client_credentials" := by
  refine ⟨rfl, ?_⟩
  decide

/-- C8: with `retryOnFail` the backoff delays form the sequence
`min(10 s, 2^attempt × 1 s)`: the first delay is 1 s, consecutive delays
are non-decreasing, stay within `[1 s, 10 s]`, double until the 10-second
cap is reached, and attempts are unbounded (`forever: true`). -/
theorem retryBackoff_schedule :
    RETRY_FOREVER = true ∧
    retryBackoff 0 = 1000 ∧
    (∀ i, retryBackoff i = min (1000 * 2 ^ i) 10000) ∧
    (∀ i, 1000 ≤ retryBackoff i ∧ retryBackoff i ≤ 10000) ∧
    (∀ i, retryBackoff i ≤ retryBackoff (i + 1)) ∧
    (∀ i, 1000 * 2 ^ (i + 1) ≤ 10000 → retryBackoff (i + 1) = 2 * retryBackoff i) := by
  refine ⟨rfl, rfl, fun i => rfl, fun i => ⟨?_, ?_⟩, fun i => ?_, fun i h => ?_⟩
  · exact le_min (Nat.le_mul_of_pos_right 1000
      (Nat.pos_pow_of_pos i (by norm_num [RETRY_FACTOR])))
      (by norm_num [MAX_RETRY_TIMEOUT])
  · exact min_le_right _ _
  · exact min_le_min (Nat.mul_le_mul_left _
      (Nat.pow_le_pow_right (by norm_num [RETRY_FACTOR]) (Nat.le_succ i))) le_rfl
  · have h' : 1000 * 2 ^ i ≤ 10000 := by
      calc 1000 * 2 ^ i ≤ 1000 * 2 ^ (i + 1) :=
            Nat.mul_le_mul_left _ (Nat.pow_le_pow_right (by norm_num) (Nat.le_succ i))
        _ ≤ 10000 := h
    simp only [retryBackoff, MIN_RETRY_TIMEOUT, RETRY_FACTOR, MAX_RETRY_TIMEOUT]
    rw [min_eq_left h, min_eq_left h']
    ring

/-- Witness for C8's theorem at attempt 2: the delay before attempt 3
(8 s) is twice the delay before attempt 2 (4 s). -/
theorem retryBackoff_schedule_witness : retryBackoff 3 = 2 * retryBackoff 2 :=
  retryBackoff_schedule.2.2.2.2.2 2 (by norm_num [MIN_RETRY_TIMEOUT, RETRY_FACTOR])

/-- C4 counterexample: when the process callback returns `true`
synchronously and also invokes its completion callback with
`(null, true)`, the commit-and-wait handling is driven twice — not exactly
once as claimed; `_consumeForRun` has no guard that ignores the second
observation. -/
theorem consumeForRun_double_observation :
    handledCount (consumeForRunEvents none
      { syncResult := .ok (some true),
        asyncCompletion := some (none, some true) }) = 2 ∧
    ¬ handledCount (consumeForRunEvents none
      { syncResult := .ok (some true),
        asyncCompletion := some (none, some true) }) = 1 := by
  exact ⟨rfl, by decide⟩

/-- C4 (amended): when the process callback both returns a defined boolean
and invokes its completion callback without an error, both observations
drive `_handleProcessCallbackResponse` — the completion-callback
observation and the synchronous return are each handled once, and neither
is ignored. -/
theorem consumeForRun_both_observations_drive (pb : ProcessBehavior) (b : Bool)
    (c : Option Bool) (hsync : pb.syncResult = .ok (some b))
    (hasync : pb.asyncCompletion = some (none, c)) :
    consumeForRunEvents none pb = [.handled c, .handled (some b)] ∧
    handledCount (consumeForRunEvents none pb) = 2 := by
  constructor
  · simp [consumeForRunEvents, hsync, hasync]
  · simp [consumeForRunEvents, hsync, hasync, handledCount, RunEvent.isHandled]

/-- Witness for C4's amended theorem at a concrete process behaviour. -/
theorem consumeForRun_both_observations_drive_witness :
    consumeForRunEvents none
      { syncResult := .ok (some false), asyncCompletion := some (none, some true) } =
      [.handled (some true), .handled (some false)] ∧
    handledCount (consumeForRunEvents none
      { syncResult := .ok (some false), asyncCompletion := some (none, some true) }) = 2 :=
  consumeForRun_both_observations_drive _ false (some true) rfl rfl

/-- C7 counterexample: `subscribe([])` on a fresh channel — whose
`_activeSubscriptions` is also `[]`, so the requested sequence is
element-wise equal to the active one — does not complete with success:
it throws a `PermanentError` before the comparison is reached. -/
theorem subscribe_empty_topics_throws :
    (subscribeOp initialChannelState [] none false (.reply 200 none)
        (.reply 204 ())).completion =
      .thrown (.permanentError "At least one topic must be specified") ∧
    initialChannelState.activeSubscriptions = [] := by
  exact ⟨rfl, rfl⟩

/-- C7 (amended): for every non-empty topic list equal to the current
active subscriptions, `subscribe` completes with success, sends no HTTP
request, and leaves every field of the channel state (consumer id, active
and requested subscriptions, commit log) unchanged. -/
theorem subscribe_noop_when_already_subscribed (s : ChannelState)
    (T : List String) (authError : Option ChannelError) (authHasReset : Bool)
    (createOutcome : HttpOutcome (Option String)) (subOutcome : HttpOutcome Unit)
    (hne : T ≠ []) (heq : s.activeSubscriptions = T) :
    subscribeOp s T authError authHasReset createOutcome subOutcome =
      { state := s, requests := [], completion := .callback none } := by
  simp [subscribeOp, hne, heq, alreadySubscribed_self]

/-- Witness for C7's amended theorem on a subscribed channel. -/
theorem subscribe_noop_when_already_subscribed_witness :
    subscribeOp subscribedChannelState ["t1"] none false (.reply 200 none)
        (.reply 204 ()) =
      { state := subscribedChannelState, requests := [],
        completion := .callback none } :=
  subscribe_noop_when_already_subscribed subscribedChannelState ["t1"] none false _ _
    (by decide) (by decide)

/-- C5: a `commit` with an empty commit log completes with success, sends
nothing and changes nothing; with a non-empty log, the log becomes empty
exactly when the attempt completes with success (which requires the offsets
POST to have been sent), and on any failed commit the log still holds the
same entries for the next attempt. -/
theorem commit_log_semantics (s : ChannelState) (authError : Option ChannelError)
    (authHasReset : Bool) (stringify : Unit → String) (o : HttpOutcome Unit) :
    (s.recordsCommitLog = [] →
        commitAttempt s authError authHasReset stringify o =
          { state := s, requests := [], error := none }) ∧
    (s.recordsCommitLog ≠ [] →
        ((commitAttempt s authError authHasReset stringify o).error = none →
            (commitAttempt s authError authHasReset stringify o).state.recordsCommitLog
              = [] ∧
            (commitAttempt s authError authHasReset stringify o).requests ≠ []) ∧
        ((commitAttempt s authError authHasReset stringify o).error ≠ none →
            (commitAttempt s authError authHasReset stringify o).state.recordsCommitLog
              = s.recordsCommitLog)) := by
  by_cases hlog : s.recordsCommitLog = []
  · exact ⟨fun _ => by simp [commitAttempt, hlog], fun h => absurd hlog h⟩
  · refine ⟨fun h => absurd h hlog, fun _ => ?_⟩
    unfold commitAttempt
    rw [if_neg hlog]
    rcases hg : retryGate s with _ | _ | _
    · simp
    · simp
    · rcases hm : sendRequestModel authError authHasReset true stringify o
        with ⟨res, sent⟩
      cases res <;> simp

/-- Witness for C5's theorem: a successful offsets POST on a channel with
one pending entry empties the log; the empty-log branch sends nothing. -/
theorem commit_log_semantics_witness :
    (commitAttempt initialChannelState none false (fun _ => "")
        (.reply 204 ()) = { state := initialChannelState, requests := [],
                            error := none }) ∧
    (commitAttempt { subscribedChannelState with
        recordsCommitLog := [{ topic := "t1", partition := 0, offset := 5 }] }
      none false (fun _ => "") (.reply 204 ())).state.recordsCommitLog = [] := by
  constructor
  · exact (commit_log_semantics initialChannelState none false (fun _ => "")
      (.reply 204 ())).1 rfl
  · exact ((commit_log_semantics _ none false (fun _ => "")
      (.reply 204 ())).2 (by decide)).1 (by decide) |>.1

/-- C6: classification of every HTTP outcome by `_sendRequestWithAuthInfo`:
2xx success statuses invoke the success callback; 401/403 invoke the error
callback with a `TemporaryError` and call `auth.reset()` exactly when the
auth strategy has one; 404 invokes the not-found callback when provided and
otherwise the error callback with a `TemporaryError`; every other status
invokes the error callback with a `TemporaryError`; a transport error is
forwarded to the error callback unchanged. -/
theorem executor_classification {β : Type}
    (authHasReset hasNotFoundCallback : Bool) (stringify : β → String) :
    (∀ e, sendRequestWithAuthInfo authHasReset hasNotFoundCallback stringify
        (.transportError e) = .failure e false) ∧
    (∀ status (body : β),
        (status = 200 ∨ status = 201 ∨ status = 202 ∨ status = 204) →
        sendRequestWithAuthInfo authHasReset hasNotFoundCallback stringify
          (.reply status body) = .success status body) ∧
    (∀ status (body : β), (status = 401 ∨ status = 403) →
        sendRequestWithAuthInfo authHasReset hasNotFoundCallback stringify
          (.reply status body) =
          .failure (.temporaryError ("Token potentially expired (" ++
            toString status ++ "): " ++ stringify body)) authHasReset) ∧
    (∀ (body : β), hasNotFoundCallback = true →
        sendRequestWithAuthInfo authHasReset hasNotFoundCallback stringify
          (.reply 404 body) = .notFound 404 body) ∧
    (∀ (body : β), hasNotFoundCallback = false →
        sendRequestWithAuthInfo authHasReset hasNotFoundCallback stringify
          (.reply 404 body) =
          .failure (.temporaryError ("Unexpected temporary error 404: " ++
            stringify body)) false) ∧
    (∀ status (body : β),
        status ∉ ([200, 201, 202, 204, 401, 403, 404] : List Nat) →
        sendRequestWithAuthInfo authHasReset hasNotFoundCallback stringify
          (.reply status body) =
          .failure (.temporaryError ("Unexpected temporary error " ++
            toString status ++ ": " ++ stringify body)) false) := by
  refine ⟨fun e => rfl, ?_, ?_, ?_, ?_, ?_⟩
  · rintro status body (rfl | rfl | rfl | rfl) <;> rfl
  · rintro status body (rfl | rfl) <;> simp [sendRequestWithAuthInfo]
  · intro body h
    subst h
    simp [sendRequestWithAuthInfo]
  · intro body h
    subst h
    simp only [sendRequestWithAuthInfo]
    norm_num
    have hmsg : ("Unexpected temporary error " ++ toString (404 : Nat) ++ ": ") =
        "Unexpected temporary error 404: " := rfl
    rw [← hmsg]
  · intro status body h
    simp only [List.mem_cons, List.not_mem_nil, or_false, not_or] at h
    obtain ⟨h200, h201, h202, h204, h401, h403, h404⟩ := h
    simp [sendRequestWithAuthInfo, h200, h201, h202, h204, h401, h403, h404]

/-- Witness for C6's theorem at concrete statuses. -/
theorem executor_classification_witness :
    sendRequestWithAuthInfo true true (fun _ : Unit => "body")
      (.reply 200 ()) = .success 200 () ∧
    sendRequestWithAuthInfo true true (fun _ : Unit => "body")
      (.reply 403 ()) =
      .failure (.temporaryError "Token potentially expired (403): body") true ∧
    sendRequestWithAuthInfo true true (fun _ : Unit => "body")
      (.reply 404 ()) = .notFound 404 () ∧
    sendRequestWithAuthInfo true false (fun _ : Unit => "body")
      (.reply 500 ()) =
      .failure (.temporaryError "Unexpected temporary error 500: body") false := by
  refine ⟨?_, ?_, ?_, ?_⟩
  · exact (executor_classification true true (fun _ : Unit => "body")).2.1
      200 () (Or.inl rfl)
  · exact (executor_classification true true (fun _ : Unit => "body")).2.2.1
      403 () (Or.inr rfl)
  · exact (executor_classification true true (fun _ : Unit => "body")).2.2.2.1
      () rfl
  · exact (executor_classification true false (fun _ : Unit => "body")).2.2.2.2.2
      500 () (by decide)

/-- C2: a stop requested while a run is in progress registers its callback;
when the run later exits through `_handleRunError` with any non-consumer
error (or none), the state delivered alongside the done callback has
`running = false` and `stopRequested = false`, the registered stop
callbacks — including the newly registered one, exactly once — have all
been invoked and drained, and a `StopError` is normalised to a null done
argument. -/
theorem stop_request_run_exit (s : ChannelState) (cb : Nat)
    (e : Option ChannelError) (hrun : s.running = true)
    (hcb : cb ∉ s.stopCallbacks)
    (hnc : ∀ m, e ≠ some (.consumerError m)) :
    ∃ s' invoked doneArg,
      handleRunError (stopOp s (some cb)).state e true =
        .exitRun s' invoked doneArg ∧
      s'.running = false ∧ s'.stopRequested = false ∧ s'.stopCallbacks = [] ∧
      invoked = s.stopCallbacks ++ [cb] ∧ invoked.count cb = 1 ∧
      (e = some .stopError → doneArg = some none) := by
  have hcbs : (stopOp s (some cb)).state.stopCallbacks = s.stopCallbacks ++ [cb] := by
    unfold stopOp
    rw [if_pos hrun]
    by_cases ht : s.runLoopTimeoutSet <;> simp [ht]
  have hcount : ((stopOp s (some cb)).state.stopCallbacks).count cb = 1 := by
    rw [hcbs]
    simp [List.count_append, List.count_eq_zero.mpr hcb]
  rcases e with _ | err
  · refine ⟨_, _, _, rfl, rfl, rfl, rfl, hcbs, hcount, ?_⟩
    intro h
    cases h
  · cases err with
    | consumerError m => exact absurd rfl (hnc m)
    | stopError =>
      exact ⟨_, _, _, rfl, rfl, rfl, rfl, hcbs, hcount, fun _ => rfl⟩
    | permanentError m =>
      refine ⟨_, _, _, rfl, rfl, rfl, rfl, hcbs, hcount, ?_⟩
      intro h
      simp at h
    | temporaryError m =>
      refine ⟨_, _, _, rfl, rfl, rfl, rfl, hcbs, hcount, ?_⟩
      intro h
      simp at h
    | permanentAuthenticationError m =>
      refine ⟨_, _, _, rfl, rfl, rfl, rfl, hcbs, hcount, ?_⟩
      intro h
      simp at h
    | temporaryAuthenticationError m =>
      refine ⟨_, _, _, rfl, rfl, rfl, rfl, hcbs, hcount, ?_⟩
      intro h
      simp at h

/-- Witness for C2's theorem: stop during a run that then ends with a
`StopError`. -/
theorem stop_request_run_exit_witness :
    runningChannelState.running = true ∧ (7 : Nat) ∉ runningChannelState.stopCallbacks ∧
    ∃ s' invoked doneArg,
      handleRunError (stopOp runningChannelState (some 7)).state
        (some .stopError) true = .exitRun s' invoked doneArg ∧
      s'.running = false ∧ s'.stopRequested = false ∧ s'.stopCallbacks = [] ∧
      invoked = runningChannelState.stopCallbacks ++ [7] ∧
      invoked.count 7 = 1 ∧
      (some ChannelError.stopError = some ChannelError.stopError → doneArg = some none) :=
  ⟨rfl, by decide,
    stop_request_run_exit runningChannelState 7 (some .stopError) rfl
      (by decide) (fun m h => by simp at h)⟩

/-- C10: a `consume` attempt on a subscribed channel leaves the commit log
untouched and delivers no payload list whenever it completes with an error
(temporary, consumer-lost, permanent or stop); when it completes with
success the observed response was classified successful, exactly one
`{topic, partition, offset}` entry per returned record is appended to the
commit log, and the decoded payloads are delivered. -/
theorem consume_error_isolation {α : Type} (s : ChannelState)
    (authError : Option ChannelError) (authHasReset : Bool)
    (stringify : List ConsumeRecord → String) (decode : String → α)
    (o : HttpOutcome (List ConsumeRecord))
    (hsub : s.activeSubscriptions ≠ []) :
    ∃ r, consumeAttempt s authError authHasReset stringify decode o = some r ∧
      (r.error.isSome →
        r.state.recordsCommitLog = s.recordsCommitLog ∧ r.payloads = none) ∧
      (r.error = none → ∃ status records,
        o = .reply status records ∧ authError = none ∧
        sendRequestWithAuthInfo authHasReset true stringify o =
          .success status records ∧
        r.state.recordsCommitLog =
          s.recordsCommitLog ++ records.map recordEntry ∧
        r.payloads = some (records.map (fun rec => decode rec.message.payload))) := by
  unfold consumeAttempt
  rw [if_neg hsub]
  rcases hg : retryGate s with _ | _ | _
  · exact ⟨_, rfl, fun _ => ⟨rfl, rfl⟩, fun h => by simp at h⟩
  · exact ⟨_, rfl, fun _ => ⟨rfl, rfl⟩, fun h => by simp at h⟩
  · rcases authError with _ | e
    · rcases o with e | ⟨status, records⟩
      · exact ⟨_, rfl, fun _ => ⟨rfl, rfl⟩, fun h => by simp [sendRequestModel,
          sendRequestWithAuthInfo] at h⟩
      · by_cases h1 : status = 200 ∨ status = 201 ∨ status = 202 ∨ status = 204
        · have hsr : sendRequestWithAuthInfo authHasReset true stringify
              (HttpOutcome.reply status records) = .success status records := by
            simp [sendRequestWithAuthInfo, h1]
          have hm : sendRequestModel (none : Option ChannelError) authHasReset true
              stringify (HttpOutcome.reply status records) =
              (ExecResult.success status records, true) := by
            simp only [sendRequestModel, hsr]
          rw [hm]
          exact ⟨_, rfl, fun h => by simp at h,
            fun _ => ⟨status, records, rfl, rfl, hsr, rfl, rfl⟩⟩
        · by_cases h2 : status = 401 ∨ status = 403
          · have hsr : sendRequestWithAuthInfo authHasReset true stringify
                (HttpOutcome.reply status records) =
                .failure (.temporaryError ("Token potentially expired (" ++
                  toString status ++ "): " ++ stringify records)) authHasReset := by
              simp [sendRequestWithAuthInfo, h1, h2]
            have hm : sendRequestModel (none : Option ChannelError) authHasReset true
                stringify (HttpOutcome.reply status records) =
                (ExecResult.failure (.temporaryError ("Token potentially expired (" ++
                  toString status ++ "): " ++ stringify records)) authHasReset, true) := by
              simp only [sendRequestModel, hsr]
            rw [hm]
            exact ⟨_, rfl, fun _ => ⟨rfl, rfl⟩, fun h => by simp at h⟩
          · by_cases h3 : status = 404
            · have hsr : sendRequestWithAuthInfo authHasReset true stringify
                  (HttpOutcome.reply status records) = .notFound status records := by
                simp [sendRequestWithAuthInfo, h1, h2, h3]
              have hm : sendRequestModel (none : Option ChannelError) authHasReset true
                  stringify (HttpOutcome.reply status records) =
                  (ExecResult.notFound status records, true) := by
                simp only [sendRequestModel, hsr]
              rw [hm]
              exact ⟨_, rfl, fun _ => ⟨rfl, rfl⟩, fun h => by simp at h⟩
            · have hsr : sendRequestWithAuthInfo authHasReset true stringify
                  (HttpOutcome.reply status records) =
                  .failure (.temporaryError ("Unexpected temporary error " ++
                    toString status ++ ": " ++ stringify records)) false := by
                simp [sendRequestWithAuthInfo, h1, h2, h3]
              have hm : sendRequestModel (none : Option ChannelError) authHasReset true
                  stringify (HttpOutcome.reply status records) =
                  (ExecResult.failure (.temporaryError ("Unexpected temporary error " ++
                    toString status ++ ": " ++ stringify records)) false, true) := by
                simp only [sendRequestModel, hsr]
              rw [hm]
              exact ⟨_, rfl, fun _ => ⟨rfl, rfl⟩, fun h => by simp at h⟩
    · exact ⟨_, rfl, fun _ => ⟨rfl, rfl⟩, fun h => by simp [sendRequestModel] at h⟩

/-- Witness for C10's theorem: consuming one record appends exactly its
`{topic, partition, offset}` entry and decodes its payload; a 500 response
leaves the commit log untouched. -/
theorem consume_error_isolation_witness :
    subscribedChannelState.activeSubscriptions ≠ [] ∧
    ∃ r, consumeAttempt subscribedChannelState none false (fun _ => "")
        (fun p => p)
        (.reply 200 [{ routingData := { topic := "t1", shardingKey := "" },
                       partition := 0, offset := 7,
                       message := { payload := "cGF5" } }]) = some r ∧
      (r.error.isSome →
        r.state.recordsCommitLog = subscribedChannelState.recordsCommitLog ∧
        r.payloads = none) ∧
      (r.error = none → ∃ status records,
        (HttpOutcome.reply 200
            [{ routingData := { topic := "t1", shardingKey := "" },
               partition := 0, offset := 7,
               message := { payload := "cGF5" } }]) = .reply status records ∧
        (none : Option ChannelError) = none ∧
        sendRequestWithAuthInfo false true (fun _ => "")
          (.reply 200 [{ routingData := { topic := "t1", shardingKey := "" },
                         partition := 0, offset := 7,
                         message := { payload := "cGF5" } }]) =
          .success status records ∧
        r.state.recordsCommitLog =
          subscribedChannelState.recordsCommitLog ++ records.map recordEntry ∧
        r.payloads = some (records.map (fun rec => rec.message.payload))) :=
  ⟨by decide,
    consume_error_isolation subscribedChannelState none false (fun _ => "")
      (fun p => p) _ (by decide)⟩

/-- C3 counterexample: `produce` invoked after destroy (`active = false`)
does not fail with a `PermanentError` and does perform an HTTP request —
`Channel.prototype.produce` has no `_stillActive` guard, so the POST to
`<producer_prefix>/produce` is sent and, on a 204 reply, the callback
receives success. -/
theorem produce_after_destroy_sends_request :
    postDestroyState.active = false ∧
    (produceOp postDestroyState "recordsPayload" none false (fun _ => "")
        (.reply 204 ())).requests.length = 1 ∧
    (produceOp postDestroyState "recordsPayload" none false (fun _ => "")
        (.reply 204 ())).completion = .callback none := by
  exact ⟨rfl, rfl, rfl⟩

/-- C3 (amended): after destroy has completed (`active = false`, consumer
fields reset), `create`, `subscribe` and `run` complete with the
`PermanentError` of `_stillActive` and send nothing, and `consume` throws a
`PermanentError` synchronously; `commit` and `delete`, whose guards (empty
commit log, unset consumer id) are satisfied in the post-destroy state
before the active check is reached, complete with success and send
nothing; `produce` is not guarded by `active` at all and issues its POST as
usual. -/
theorem operations_after_destroy (s : ChannelState) (g : String)
    (hact : s.active = false) (hcid : s.consumerId = none)
    (hsub : s.activeSubscriptions = []) (hlog : s.recordsCommitLog = [])
    (hgrp : s.consumerGroup = some g) (hrun : s.running = false) :
    (∀ authErr hr st o, createAttempt s authErr hr st o =
        some { state := s.reset, requests := [],
               error := some (.permanentError destroyedMessage) }) ∧
    (∀ T authErr hr cO sO, T ≠ [] →
        subscribeOp s T authErr hr cO sO =
          { state := s.reset, requests := [],
            completion := .callback (some (.permanentError destroyedMessage)) }) ∧
    (∀ (α : Type) authErr hr st (decode : String → α) o,
        consumeAttempt s authErr hr st decode o = none) ∧
    (∀ authErr hr st o, commitAttempt s authErr hr st o =
        { state := s, requests := [], error := none }) ∧
    (∀ authErr hr st o, deleteOp s authErr hr st o =
        { state := s, requests := [], completion := .callback none }) ∧
    (∀ payload hr st o, (produceOp s payload none hr st o).requests =
        [{ method := "POST",
           uri := appendUrlSubpath s.producerPathPrefix "produce",
           body := .produceBody payload }]) ∧
    (∀ T authErr hr cO sO, T ≠ [] →
        ∃ s', runStart s (some T) true true authErr hr cO sO =
          .exited s' [] s.stopCallbacks
            (some (some (.permanentError destroyedMessage))) ∧
          s'.running = false) := by
  have hgate : ∀ t : ChannelState, t.active = false → retryGate t = .inactive := by
    intro t h
    simp [retryGate, h]
  have hcreate : ∀ (t : ChannelState) authErr hr st o, t.consumerGroup = some g →
      t.active = false → createAttempt t authErr hr st o =
        some { state := t.reset, requests := [],
               error := some (.permanentError destroyedMessage) } := by
    intro t authErr hr st o htg hta
    have : retryGate t.reset = .inactive := hgate _ (by simp [ChannelState.reset, hta])
    simp [createAttempt, htg, this]
  refine ⟨fun authErr hr st o => hcreate s authErr hr st o hgrp hact,
    ?_, ?_, ?_, ?_, ?_, ?_⟩
  · intro T authErr hr cO sO hT
    unfold subscribeOp
    rw [if_neg hT, hsub, alreadySubscribed_nil_right T hT, if_neg (by simp), hcid]
    rw [hcreate s authErr hr (fun _ => "") cO hgrp hact]
  · intro α authErr hr st decode o
    simp [consumeAttempt, hsub]
  · intro authErr hr st o
    simp [commitAttempt, hlog]
  · intro authErr hr st o
    simp [deleteOp, hcid]
  · intro payload hr st o
    unfold produceOp
    simp only [sendRequestModel]
    rcases hsr : sendRequestWithAuthInfo hr false st o with ⟨st', b⟩ | ⟨e, ar⟩ | ⟨st', b⟩
      <;> simp
  · intro T authErr hr cO sO hT
    rcases T with _ | ⟨t, ts⟩
    · exact absurd rfl hT
    have hsubOp : subscribeOp
        { s with requestedSubscriptions := t :: ts, running := true }
        (t :: ts) authErr hr cO sO =
        { state := ({ s with requestedSubscriptions := t :: ts,
                             running := true } : ChannelState).reset,
          requests := [],
          completion := .callback (some (.permanentError destroyedMessage)) } := by
      unfold subscribeOp
      rw [if_neg (by simp : ¬ (t :: ts : List String) = [])]
      have ha : ({ s with requestedSubscriptions := t :: ts,
                          running := true } : ChannelState).activeSubscriptions
          = [] := hsub
      rw [ha, alreadySubscribed_nil_right _ (by simp), if_neg (by simp)]
      have hc : ({ s with requestedSubscriptions := t :: ts,
                          running := true } : ChannelState).consumerId
          = none := hcid
      rw [hc]
      rw [hcreate ({ s with consumerId := none,
                            activeSubscriptions := [],
                            requestedSubscriptions := t :: ts,
                            running := true } : ChannelState)
        authErr hr (fun _ => "") cO hgrp hact]
    refine ⟨{ s with consumerId := none,
                     activeSubscriptions := [],
                     requestedSubscriptions := [],
                     recordsCommitLog := [],
                     running := false,
                     stopCallbacks := [],
                     stopRequested := false }, ?_, rfl⟩
    have hg' : (s.consumerGroup = none) = False := by simp [hgrp]
    have hrb : (s.running = true) = False := by simp [hrun]
    simp only [runStart, runStart.firstIteration, hg', hrb, if_false, not_true,
      ite_true, ite_false, Bool.not_true]
    simp only [hsubOp]
    simp [handleRunError, handleRunError.exitRun, ChannelError.isConsumerError,
      ChannelError.isStopError, ChannelState.reset]

/-- Witness for C3's amended theorem on the concrete post-destroy state. -/
theorem operations_after_destroy_witness :
    commitAttempt postDestroyState none false (fun _ => "") (.reply 204 ()) =
      { state := postDestroyState, requests := [], error := none } ∧
    consumeAttempt postDestroyState none false (fun _ => "") (fun p => p)
      (.reply 200 []) = none ∧
    createAttempt postDestroyState none false (fun _ => "") (.reply 200 (some "c2")) =
      some { state := postDestroyState.reset,
             requests := [],
             error := some (.permanentError destroyedMessage) } := by
  have h := operations_after_destroy postDestroyState "sample_consumer_group"
    rfl rfl rfl rfl rfl rfl
  exact ⟨h.2.2.2.1 none false (fun _ => "") (.reply 204 ()),
    h.2.2.1 String none false (fun _ => "") (fun p => p) (.reply 200 []),
    h.1 none false (fun _ => "") (.reply 200 (some "c2"))⟩

end DxlStreaming
